import Mathlib

/-!
Verification of the NEO-6M GPS time-sync sketches.

This file shallowly embeds the sentence framer, the checksum codec, the
sentence classifiers and the time-authority state machine of the repository's
Arduino sketches (`GPSTime.ino` and the unnamed sketch variants) and proves
or refutes the specification claims about them.

Bytes are modelled as `Nat` (the sketches only handle 7-bit ASCII; where a
C cast or 16-bit/32-bit wrap matters it is made explicit with `% 2 ^ w`).
Byte buffers are modelled as `List Nat` (C strings: the content up to the
first NUL is the string) or, for the framer's fixed buffer, as a total map
from index to byte.
-/

namespace NEO6M

/-- Size of the framer buffer: `char gpsResponse[200]` in GPSTime.ino line 53. -/
def BUF_SIZE : Nat := 200

/-- State of the sentence framer of `ProcessGPS`: the `gpsResponse` buffer
(as a total map from index to byte), the `packetOffset` write cursor and the
`buildingSentence` flag (GPSTime.ino lines 52-54). -/
structure FramerState where
  gpsResponse : Nat → Nat
  packetOffset : Nat
  buildingSentence : Bool

/-- Result of one framing step: the successor state, whether the step
completed a full sentence (`bFullSentence`), whether the overflow branch ran
(the `MEMORY OVERFLOW` log), and the buffer index written by the step. -/
structure StepResult where
  state : FramerState
  emitted : Bool
  overflowed : Bool
  writeIdx : Nat

/-- A zeroed buffer, the result of `memset(gpsResponse, 0, sizeof(gpsResponse))`. -/
def zeroBuf : Nat → Nat := fun _ => 0

/-- Framer state at startup: cleared buffer, cursor 0, not building. -/
def initFramer : FramerState := ⟨zeroBuf, 0, false⟩

/-- One iteration of the `while` loop of `ProcessGPS` (GPSTime.ino lines
342-370): overflow guard, then either the start-marker branch (byte `'$'` =
36) or the append branch with the CR/LF (13, 10) completion test. -/
def processByte (s : FramerState) (c : Nat) : StepResult :=
  let ovf := decide (BUF_SIZE ≤ s.packetOffset)
  let s1 : FramerState :=
    if BUF_SIZE ≤ s.packetOffset then
      { s with gpsResponse := zeroBuf, packetOffset := 0 }
    else s
  if c = 36 then
    let base := if s1.packetOffset ≠ 0 then zeroBuf else s1.gpsResponse
    { state := { gpsResponse := fun j => if j = 0 then 36 else base j,
                 packetOffset := 1, buildingSentence := true },
      emitted := false, overflowed := ovf, writeIdx := 0 }
  else
    let off := s1.packetOffset
    let buf : Nat → Nat := fun j => if j = off then c else s1.gpsResponse j
    if 2 < off ∧ buf (off - 1) = 13 ∧ buf off = 10 then
      { state := { gpsResponse := buf, packetOffset := 0, buildingSentence := false },
        emitted := true, overflowed := ovf, writeIdx := off }
    else
      { state := { gpsResponse := buf, packetOffset := off + 1,
                   buildingSentence := s1.buildingSentence },
        emitted := false, overflowed := ovf, writeIdx := off }

/-- One invocation of `ProcessGPS` with a single byte available: the entry
reset of lines 338-341 (`memset` and cursor reset when not building) followed
by one loop iteration. -/
def feedByte (s : FramerState) (c : Nat) : StepResult :=
  let s0 : FramerState :=
    if s.buildingSentence = false then
      { s with gpsResponse := zeroBuf, packetOffset := 0 }
    else s
  processByte s0 c

/-- Accumulated outcome of feeding a byte sequence one byte per invocation:
final framer state, number of completed sentences, number of overflow resets. -/
structure RunResult where
  state : FramerState
  emissions : Nat
  overflows : Nat

/-- Feed a byte sequence to the framer one byte per `ProcessGPS` invocation. -/
def feedAll (s : FramerState) (input : List Nat) : RunResult :=
  input.foldl
    (fun r c =>
      let t := feedByte r.state c
      ⟨t.state, r.emissions + (if t.emitted then 1 else 0),
        r.overflows + (if t.overflowed then 1 else 0)⟩)
    ⟨s, 0, 0⟩

/-- Modelled from the spec's words, for comparison with the code (claim C1):
a candidate sentence should be emitted iff some start marker `'$'` is
eventually followed, within the fixed buffer capacity, by the CR/LF
terminator pair with no intervening start marker. -/
def specCandidateEmitted (input : List Nat) : Bool :=
  (List.range input.length).any fun i =>
    input.getD i 0 == 36 &&
    ((List.range (input.length - 1)).any fun j =>
      decide (i < j) && input.getD j 0 == 13 && input.getD (j + 1) 0 == 10 &&
      decide (j + 2 - i ≤ BUF_SIZE) &&
      ((List.range (j + 2)).all fun k => decide (k ≤ i) || input.getD k 0 != 36))

/-- The C-string content of a byte buffer: the bytes before the first NUL. -/
def cstr (l : List Nat) : List Nat := l.takeWhile (fun b => b != 0)

/-- C `strlen` on a byte buffer. -/
def strlenList (l : List Nat) : Nat := (cstr l).length

/-- ASCII code of the uppercase hexadecimal digit for `d < 16`, as produced
by `sprintf("%02X", ...)`. -/
def hexDigit (d : Nat) : Nat := if d < 10 then 48 + d else 55 + d

/-- The XOR accumulation loop shared by `CheckSum` and `SetCheckSum`:
XOR of the buffer bytes at indices `1 ≤ x < stop` (the `'$'` at index 0 is
excluded). -/
def xorRange (p : List Nat) (stop : Nat) : Nat :=
  ((p.take stop).drop 1).foldl (fun a b => a ^^^ b) 0

/-- The asterisk scan of `CheckSum` (GPSTime.ino lines 311-317): index of the
first `'*'` (42) within the string, with 0 when none is found. -/
def starIndex (p : List Nat) : Nat :=
  match List.findIdx? (fun b => b == 42) (cstr p) with
  | some i => i
  | none => 0

/-- `CheckSum` from GPSTime.ino lines 306-333 (identical in part_001 lines
439-466): requires `strlen > 10` and an asterisk at positive index, XORs the
bytes strictly between the start marker and the asterisk, formats the result
as two uppercase hex digits — and then compares only the FIRST character of
the claimed and computed checksums (`bResult=(*csIN==*Calc)`). -/
def CheckSum (p : List Nat) : Bool :=
  let iSize := strlenList p
  if 10 < iSize then
    let iA := starIndex p
    if 0 < iA then
      let csIn0 := p.getD (iA + 1) 0
      csIn0 == hexDigit (xorRange p iA / 16)
    else false
  else false

/-- `SetCheckSum` from GPSTime.ino lines 284-304: fails when the five trailer
bytes would not fit the destination buffer, otherwise appends `'*'`, the two
computed uppercase hex digits, CR and LF to the command body. -/
def SetCheckSum (p : List Nat) (bufferSize : Nat) : Option (List Nat) :=
  let iSize := strlenList p
  if iSize + 5 ≤ bufferSize then
    let chk := xorRange p iSize
    some (p.take iSize ++ [42, hexDigit (chk / 16), hexDigit (chk % 16), 13, 10])
  else none

/-- ASCII byte list of a Lean string literal (used to write the concrete
NMEA sentences legibly). -/
def strBytes (s : String) : List Nat := s.toList.map Char.toNat

/-- Whether `pat` occurs at the head of `l`. -/
def matchesAt : List Nat → List Nat → Bool
  | _, [] => true
  | [], _ :: _ => false
  | a :: l, b :: p => (a == b) && matchesAt l p

/-- C `strstr` on byte lists: index of the first occurrence of `pat`. -/
def findSub : List Nat → List Nat → Option Nat
  | [], pat => if matchesAt [] pat then some 0 else none
  | a :: t, pat =>
    if matchesAt (a :: t) pat then some 0 else (findSub t pat).map (· + 1)

/-- ASCII decimal digit test. -/
def isDigitB (c : Nat) : Bool := decide (48 ≤ c ∧ c ≤ 57)

/-- C `atoi` on the NUL-terminated two-character buffers built in
`SyncTimeToGPS`: value of the leading decimal digits (the sentence fields
parsed here carry no sign or leading whitespace). -/
def atoi2 (a b : Nat) : Nat :=
  if isDigitB a then (if isDigitB b then 10 * (a - 48) + (b - 48) else a - 48)
  else 0

/-- Arduino `String.toInt` on the substrings taken here: value of the leading
decimal digits. -/
def toIntArd (l : List Nat) : Nat :=
  (l.takeWhile isDigitB).foldl (fun a c => 10 * a + (c - 48)) 0

/-- Arduino `String.indexOf(char)`: index of the first occurrence of byte
`c`, `-1` when absent. -/
def idxOfC (l : List Nat) (c : Nat) : Int :=
  match List.findIdx? (fun b => b == c) l with
  | some i => (i : Int)
  | none => -1

/-- Arduino `String.lastIndexOf(char)`: index of the last occurrence of byte
`c`, `-1` when absent. -/
def lastIdxOfC (l : List Nat) (c : Nat) : Int :=
  match List.findIdx? (fun b => b == c) l.reverse with
  | some i => ((l.length - 1 - i : Nat) : Int)
  | none => -1

/-- Reinterpretation of a C `int` expression as the 16-bit unsigned argument
of Arduino `String.substring` (AVR `int` is 16 bits). -/
def toU16 (i : Int) : Nat := (i % 65536).toNat

/-- The value of an AVR `int` (16-bit signed) assigned from a 32-bit
unsigned difference: reinterpret the low 16 bits as a signed value. -/
def toInt16 (n : Nat) : Int :=
  if n % 65536 < 32768 then ((n % 65536 : Nat) : Int)
  else ((n % 65536 : Nat) : Int) - 65536

/-- Arduino `String.substring(left, right)`: the arguments are unsigned;
the implementation swaps them when `left > right` and clamps `right` to the
string length, yielding the slice `[min, max)`. -/
def subLR (l : List Nat) (left right : Nat) : List Nat :=
  (l.take (max left right)).drop (min left right)

/-- `LEAP_YEAR` of the TimeLib library, on a year offset from 1970. -/
def leapYear1970 (y : Nat) : Bool :=
  decide ((1970 + y) % 4 = 0 ∧ ((1970 + y) % 100 ≠ 0 ∨ (1970 + y) % 400 = 0))

/-- The TimeLib `monthDays` table. -/
def monthDays : List Nat := [31, 28, 31, 30, 31, 30, 31, 31, 30, 31, 30, 31]

/-- Modelled from the TimeLib library (an external dependency of the
sketches, not part of this repository): `makeTime` converts calendar
elements (year offset from 1970, month, day, hour, minute, second) to epoch
seconds in `uint32_t` arithmetic; the `Day - 1` unsigned wrap and the final
32-bit reduction are explicit. -/
def makeTime (yr mo dy hr mi se : Nat) : Nat :=
  let leapDays := ((List.range yr).filter leapYear1970).length
  let monthSecs := ((List.range (mo - 1)).map (fun i =>
      if i + 1 = 2 && leapYear1970 yr then 86400 * 29
      else 86400 * monthDays.getD i 0)).sum
  (yr * 31536000 + 86400 * leapDays + monthSecs +
      (dy + 4294967295) * 86400 + hr * 3600 + mi * 60 + se) % 4294967296

/-- The byte pattern `"$GPRMC,"`. -/
def gprmcCommaPat : List Nat := [36, 71, 80, 82, 77, 67, 44]

/-- The byte pattern `"$GPRMC"`. -/
def gprmcPat : List Nat := [36, 71, 80, 82, 77, 67]

/-- The byte pattern `"$GPGSA"`. -/
def gpgsaPat : List Nat := [36, 71, 80, 71, 83, 65]

/-- The `_gpsStatus` flag byte of the AltSoftSerial variant (part_001),
accessed through `bitRead`/`bitSet`/`bitClear` at fixed positions:
bit 0 `rmc` (an RMC sentence was decoded), bit 1 `bbr` (battery-backed
time), bit 2 `fix2` (2D fix), bit 3 `fix3` (3D fix). -/
structure GpsStatus where
  rmc : Bool
  bbr : Bool
  fix2 : Bool
  fix3 : Bool
deriving DecidableEq

/-- Globals and external state of the AltSoftSerial variant (part_001):
the `_gpsStatus` flags, the `_gpsTime` last-fix epoch, the TimeLib clock
(`timeStatus() == timeSet` and `now()`), and the EEPROM contents (the
configured flag and the persisted `GPSSubSettings` record). -/
structure SysState where
  gpsStatus : GpsStatus
  gpsTime : Nat
  clockSet : Bool
  clock : Nat
  eeConfigured : Bool
  eeLastFix : Nat
  eeFixType : Nat
deriving DecidableEq

/-- Result of `TimeSource` (part_001 lines 380-414): the updated state, the
returned `bResult`, and whether the `unexpected char` report was printed. -/
structure TSResult where
  state : SysState
  bResult : Bool
  unexpected : Bool
deriving DecidableEq

/-- `TimeSource` from the AltSoftSerial variant (part_001 lines 380-414):
when `"$GPGSA"` occurs in the buffer, read the fix-quality character at
buffer index 9, clear bits 1-3, then set `bbr` on `'1'` (49), `fix2` on
`'2'` (50), `fix3` on `'3'` (51), and otherwise report the unexpected
character; `bResult` is true whenever the pattern was found. -/
def TimeSourceAlt (s : SysState) (resp : List Nat) : TSResult :=
  if (findSub (cstr resp) gpgsaPat).isSome then
    let fx := resp.getD 9 0
    let g := { s.gpsStatus with bbr := false, fix2 := false, fix3 := false }
    if fx == 49 then ⟨{ s with gpsStatus := { g with bbr := true } }, true, false⟩
    else if fx == 50 then ⟨{ s with gpsStatus := { g with fix2 := true } }, true, false⟩
    else if fx == 51 then ⟨{ s with gpsStatus := { g with fix3 := true } }, true, false⟩
    else ⟨{ s with gpsStatus := g }, true, true⟩
  else ⟨s, false, false⟩

/-- Outcome of the structural parse at the head of `SyncTimeToGPS`
(part_001 lines 265-315): no usable sentence (`bResult` stays false), a
sentence whose `makeTime` came out zero (`bResult` becomes true but no state
changes), or a positive candidate epoch. -/
inductive RmcParse
  | noSentence
  | badTime
  | epoch (t : Nat)
deriving DecidableEq

/-- The parse phase of `SyncTimeToGPS` (part_001 lines 265-315): find
`"$GPRMC,"`, check the first comma lands the time field at offset 7, read
`HHMMSS` with `atoi`, scan to the eighth comma from offset 7, read `DDMMYY`,
require positive day and month and a year above 30, and run `makeTime`. -/
def rmcParse (resp : List Nat) : RmcParse :=
  match findSub (cstr resp) gprmcCommaPat with
  | none => .noSentence
  | some m =>
    let pF := (cstr resp).drop m
    let j := match (List.range 9).find? (fun j => pF.getD j 0 == 44) with
             | some j => j
             | none => 9
    if j + 1 = 7 then
      match (((List.range (strlenList pF)).filter
          (fun k => decide (7 ≤ k) && pF.getD k 0 == 44)))[7]? with
      | none => .noSentence
      | some i8 =>
        let d := i8 + 1
        let dy := atoi2 (pF.getD d 0) (pF.getD (d + 1) 0)
        let mo := atoi2 (pF.getD (d + 2) 0) (pF.getD (d + 3) 0)
        let yr := atoi2 (pF.getD (d + 4) 0) (pF.getD (d + 5) 0) + 30
        if 0 < mo ∧ 0 < dy ∧ 30 < yr then
          let t := makeTime yr mo dy
              (atoi2 (pF.getD 7 0) (pF.getD 8 0))
              (atoi2 (pF.getD 9 0) (pF.getD 10 0))
              (atoi2 (pF.getD 11 0) (pF.getD 12 0))
          if 0 < t then .epoch t else .badTime
        else .noSentence
    else .noSentence

/-- The candidate epoch carried by a time/date sentence, when every
structural check of `SyncTimeToGPS` passes and `makeTime` is positive. -/
def rmcEpoch (resp : List Nat) : Option Nat :=
  match rmcParse resp with
  | .epoch t => some t
  | _ => none

/-- Result of `SyncTimeToGPS` (part_001): the updated state, the returned
`bResult`, and the decay correction printed by the `TIME mismatch` report
(`none` when no mismatch was reported). -/
structure SyncResult where
  state : SysState
  bResult : Bool
  decayReport : Option Int
deriving DecidableEq

/-- `SyncTimeToGPS` from the AltSoftSerial variant (part_001 lines 260-378):
on a positive candidate epoch, set the `rmc` bit, copy the epoch to
`_gpsTime` when a 2D/3D flag is set, and only when some trust flag
(`bbr`/`fix2`/`fix3`) is set touch the clock — set it directly when unset,
otherwise compute the 16-bit `int decay` and on a non-zero decay overwrite
the clock and report; afterwards, when a fix flag is set, persist
`{_gpsTime, fix type}` to EEPROM. -/
def SyncTimeToGPSAlt (s : SysState) (resp : List Nat) : SyncResult :=
  match rmcParse resp with
  | .noSentence => ⟨s, false, none⟩
  | .badTime => ⟨s, true, none⟩
  | .epoch tempTime =>
    let g1 := { s.gpsStatus with rmc := true }
    let s1 := { s with gpsStatus := g1 }
    let s2 := if g1.fix2 || g1.fix3 then { s1 with gpsTime := tempTime } else s1
    if g1.bbr || g1.fix2 || g1.fix3 then
      let clockStep :=
        if s2.clockSet = false then
          ({ s2 with clockSet := true, clock := tempTime }, (none : Option Int))
        else
          let decay := toInt16 ((tempTime + 4294967296 - s2.clock % 4294967296) % 4294967296)
          if decay ≠ 0 then ({ s2 with clock := tempTime }, some decay)
          else (s2, none)
      let s4 :=
        if g1.fix2 || g1.fix3 then
          { clockStep.1 with eeLastFix := clockStep.1.gpsTime,
                             eeFixType := if g1.fix2 then 50 else 51 }
        else clockStep.1
      ⟨s4, true, clockStep.2⟩
    else ⟨s2, true, none⟩

/-- Globals and external state of GPSTime.ino: the `gpsInternalClock` flag,
the `lastUpdateGPS` epoch of the last accepted sync, the TimeLib clock, and
the EEPROM contents (configured flag, last-fix epoch, fix-type byte). -/
structure InoState where
  gpsInternalClock : Bool
  lastUpdateGPS : Nat
  clockSet : Bool
  clock : Nat
  eeConfigured : Bool
  eeLastFix : Nat
  eeFixType : Nat
deriving DecidableEq

/-- Result of `TimeSource` from GPSTime.ino. -/
structure TSInoResult where
  state : InoState
  bResult : Bool
deriving DecidableEq

/-- The qualification chain of `TimeSource` in GPSTime.ino (lines 251-263)
and the fix-quality character it acts on. The `indexOf` arguments are C
multi-character constants; with 16-bit `int` they collapse to their final
character (`'$GPGSA'` to `'A'` = 65, `'\r\n'` to the line feed 10). The
sentence qualifies when `strstr` finds `"$GPGSA"`, the first `'A'` is at
index 5 or later, a line feed follows, and the sentence up to it passes
`CheckSum`; the character at index 9 of the rewound string is returned. -/
def inoGsaFix (resp : List Nat) : Option Nat :=
  let str := cstr resp
  if (findSub str gpgsaPat).isSome then
    let iLP := idxOfC str 65
    if 5 ≤ iLP then
      let sGSA := str.drop (iLP - 5).toNat
      let iCrLf := idxOfC sGSA 10
      if 0 < iCrLf then
        if CheckSum (subLR sGSA 0 (toU16 iCrLf)) then some (sGSA.getD 9 0)
        else none
      else none
    else none
  else none

/-- `TimeSource` from GPSTime.ino lines 244-281: on a qualifying sentence
(see `inoGsaFix`), `'1'` (49) sets `gpsInternalClock`; `'2'`/`'3'` (50/51)
store `now()` and the fix character to EEPROM when the clock is set and
clear `gpsInternalClock`; any other character changes nothing; `bResult` is
true whenever the sentence qualified. -/
def TimeSourceIno (s : InoState) (resp : List Nat) : TSInoResult :=
  match inoGsaFix resp with
  | none => ⟨s, false⟩
  | some fx =>
    if fx == 49 then ⟨{ s with gpsInternalClock := true }, true⟩
    else if fx == 50 || fx == 51 then
      let s1 := if s.clockSet then { s with eeLastFix := s.clock, eeFixType := fx } else s
      ⟨{ s1 with gpsInternalClock := false }, true⟩
    else ⟨s, true⟩

/-- One step of the eight-field advance of `SyncTimeToGPS` in GPSTime.ino
(lines 199-202): `sDate = sDate.substring(sDate.indexOf(',') + 1)`. -/
def advanceField (l : List Nat) : List Nat := l.drop (toU16 (idxOfC l 44 + 1))

/-- The parse phase of `SyncTimeToGPS` in GPSTime.ino (lines 175-212).
Under the AVR multi-character-constant semantics `lastIndexOf('$GPRMC')`
collapses to `lastIndexOf('C')` (67) and `indexOf('$GPRMC,')` to
`indexOf(',')` (44). When `strstr` finds `"$GPRMC"`, the last `'C'` is at
index 5 or later, the rewound string passes `CheckSum`, and the field at
the ninth comma-separated position has exactly six characters, the
`makeTime` result (assigned to `lastUpdateGPS`) is returned; the time
fields are parsed only when the first comma puts them at offset 7. -/
def rmcParseIno (resp : List Nat) : Option Nat :=
  let str := cstr resp
  if (findSub str gprmcPat).isSome then
    let iLP := lastIdxOfC str 67
    if 5 ≤ iLP then
      let sRMC := str.drop (iLP - 5).toNat
      if CheckSum sRMC then
        let iStart := idxOfC sRMC 44 + 1
        let hms :=
          if iStart = 7 then
            let sTime := sRMC.drop 7
            let sTime2 := subLR sTime 0 (toU16 (idxOfC sTime 44 - 3))
            (toIntArd (subLR sTime2 0 2), toIntArd (subLR sTime2 2 4),
              toIntArd (subLR sTime2 4 6))
          else (0, 0, 0)
        let sDate1 := advanceField^[8] (sRMC.drop (toU16 iStart))
        let sDate := subLR sDate1 0 (toU16 (idxOfC sDate1 44))
        if sDate.length = 6 then
          let dy := toIntArd (subLR sDate 0 2)
          let mo := toIntArd (subLR sDate 2 4)
          let yr := toIntArd (subLR sDate 4 6) + 30
          some (makeTime yr mo dy hms.1 hms.2.1 hms.2.2)
        else none
      else none
    else none
  else none

/-- Result of `SyncTimeToGPS` from GPSTime.ino. -/
structure SyncInoResult where
  state : InoState
  bResult : Bool
  decayReport : Option Int
deriving DecidableEq

/-- `SyncTimeToGPS` from GPSTime.ino lines 171-241: when the parse reaches
the six-character date field (see `rmcParseIno`), `lastUpdateGPS` receives
the `makeTime` result; a positive value sets the clock directly when unset,
otherwise a non-zero 16-bit `int decay` overwrites the clock and is
reported. No EEPROM access occurs here. -/
def SyncTimeToGPSIno (s : InoState) (resp : List Nat) : SyncInoResult :=
  match rmcParseIno resp with
  | none => ⟨s, false, none⟩
  | some lU =>
    let s1 := { s with lastUpdateGPS := lU }
    if 0 < lU then
      if s1.clockSet = false then
        ⟨{ s1 with clockSet := true, clock := lU }, true, none⟩
      else
        let decay := toInt16 ((lU + 4294967296 - s1.clock % 4294967296) % 4294967296)
        if decay ≠ 0 then ⟨{ s1 with clock := lU }, true, some decay⟩
        else ⟨s1, true, none⟩
    else ⟨s1, false, none⟩

/-- `Spam` from GPSTime.ino lines 128-149: detection only reissues the
configuration commands over serial; `bResult` is never assigned, so the
function always returns false. -/
def Spam (resp : List Nat) : Bool := false

/-- `SYNC_TIME_T_TO_GPS` (GPSTime.ino line 46): minimum seconds between
accepted time syncs. -/
def SYNC_TIME_T_TO_GPS : Nat := 60

/-- The post-framing dispatch of `ProcessGPS` (GPSTime.ino lines 372-395):
on a completed sentence, require `CheckSum`, skip `Spam`, try `TimeSource`,
and call `SyncTimeToGPS` only when the clock is unset or more than
`SYNC_TIME_T_TO_GPS` seconds (in `time_t` arithmetic) have passed since
`lastUpdateGPS`. Returns the state and any reported decay correction. -/
def processSentenceIno (s : InoState) (resp : List Nat) : InoState × Option Int :=
  if CheckSum resp then
    if Spam resp then (s, none)
    else
      let ts := TimeSourceIno s resp
      if ts.bResult then (ts.state, none)
      else
        if ts.state.clockSet = false ∨
            SYNC_TIME_T_TO_GPS <
              (ts.state.clock + 4294967296 - ts.state.lastUpdateGPS % 4294967296) % 4294967296 then
          let r := SyncTimeToGPSIno ts.state resp
          (r.state, r.decayReport)
        else (ts.state, none)
  else (s, none)

/-- The EEPROM first-run initialization in `setup` (GPSTime.ino lines
66-77): when the configured flag is unset, write the flag, a zero last-fix
epoch (`lastUpdateGPS` is 0 at boot) and a NUL fix type. -/
def setupEE (s : InoState) : InoState :=
  if s.eeConfigured = false then
    { s with eeConfigured := true, eeLastFix := 0, eeFixType := 0 }
  else s

/-- The condition under which the sentence dispatch of GPSTime.ino writes
the persistent record: outer checksum accepted, qualifying `$GPGSA`
sentence whose fix character is `'2'` or `'3'`, and the clock set. -/
def eeWriteCond (s : InoState) (resp : List Nat) : Bool :=
  CheckSum resp &&
    (match inoGsaFix resp with
     | some f => (f == 50 || f == 51) && s.clockSet
     | none => false)

/-- The time/date sentence of the spec's scenario, with its correct
checksum `78`: `$GPRMC,153938.00,V,,,,,,,160722,,,N*78` plus CR LF. -/
def rmc78 : List Nat := strBytes "$GPRMC,153938.00,V,,,,,,,160722,,,N*78" ++ [13, 10]

/-- The same sentence with the second checksum digit corrupted (`7B`
claimed, `78` computed). -/
def rmc7B : List Nat := strBytes "$GPRMC,153938.00,V,,,,,,,160722,,,N*7B" ++ [13, 10]

/-- A checksum-valid fix-quality sentence whose fix character (buffer index
9) is the unexpected `'9'`. -/
def gsa9 : List Nat := strBytes "$GPGSA,A,9,,,,,,,,,,,,,99.99,99.99,99.99*38" ++ [13, 10]

/-- The checksum-valid 3D fix-quality sentence quoted in the source
comments: `$GPGSA,A,3,02,11,29,20,31,25,18,129,0.99,1.38*07` plus CR LF. -/
def gsa3 : List Nat := strBytes "$GPGSA,A,3,02,11,29,20,31,25,18,129,0.99,1.38*07" ++ [13, 10]


/-- C2: for every framer state and every incoming byte, including
adversarial ones, the index written into the fixed-size sentence buffer by
the framing step is strictly below `BUF_SIZE`, and the write cursor after
the step never exceeds the buffer capacity (the completion test only reads
indices at or below the write index, so no framing step touches the buffer
out of bounds). -/
theorem framer_write_in_bounds (s : FramerState) (c : Nat) :
    (processByte s c).writeIdx < BUF_SIZE ∧
      (processByte s c).state.packetOffset ≤ BUF_SIZE := by
  unfold processByte
  dsimp only
  split_ifs <;> refine ⟨?_, ?_⟩ <;> simp [BUF_SIZE] at * <;> omega


/-- C1 (amended): fed one byte per invocation, the framer completes a
candidate sentence exactly when the incoming byte is the line feed, a frame
is in progress, the cursor is above 2 and below capacity, and the
previously buffered byte is the carriage return. Consequently a start
marker followed by at least one ordinary byte and the terminator pair
completes a frame, but a start marker immediately followed by the
terminator pair does not, and (after an overflow reset) a frame can
complete without any start marker. -/
theorem framer_emission_iff (s : FramerState) (c : Nat) :
    (feedByte s c).emitted = true ↔
      (c = 10 ∧ s.buildingSentence = true ∧ 2 < s.packetOffset ∧
        s.packetOffset < BUF_SIZE ∧ s.gpsResponse (s.packetOffset - 1) = 13) := by
  unfold feedByte processByte
  dsimp only
  split_ifs <;> simp_all [BUF_SIZE] <;> omega


/-- C1 (counterexample): the input `"$\r\n"` (bytes 36, 13, 10) satisfies
the spec predicate — a start marker followed within capacity by the CR/LF
pair with no intervening marker — yet the framer, fed one byte at a time
from the initial state, emits no candidate sentence. -/
theorem framer_claim_iff_fails :
    specCandidateEmitted [36, 13, 10] = true ∧
      (feedAll initFramer [36, 13, 10]).emissions = 0 := by decide

/-- C6 (amended): when the cursor has reached the buffer capacity
mid-frame, the next framing step runs the overflow branch (logging
`MEMORY OVERFLOW`), clears the buffer and resets the cursor — but it leaves
`buildingSentence` unchanged rather than returning to the idle state, so
the tail of the overflowing frame keeps accumulating from the start of the
buffer and can later complete as a candidate without a new start marker.
The condition is never fatal. -/
theorem overflow_keeps_building (s : FramerState) (c : Nat)
    (hov : BUF_SIZE ≤ s.packetOffset) (hb : s.buildingSentence = true) :
    (processByte s c).overflowed = true ∧
    (processByte s c).state.buildingSentence = true ∧
    (processByte s c).emitted = false ∧
    (processByte s c).state.packetOffset = 1 ∧
    (processByte s c).state.gpsResponse 0 = c ∧
    (processByte s c).state.gpsResponse 1 = 0 := by
  unfold processByte
  dsimp only
  split_ifs <;> simp_all [BUF_SIZE, zeroBuf]

set_option maxRecDepth 8192 in
/-- Witness for `overflow_keeps_building` at a concrete full-buffer state
receiving byte `'a'`. -/
theorem overflow_keeps_building_witness :
    (processByte ⟨zeroBuf, BUF_SIZE, true⟩ 97).overflowed = true ∧
    (processByte ⟨zeroBuf, BUF_SIZE, true⟩ 97).state.buildingSentence = true ∧
    (processByte ⟨zeroBuf, BUF_SIZE, true⟩ 97).emitted = false ∧
    (processByte ⟨zeroBuf, BUF_SIZE, true⟩ 97).state.packetOffset = 1 ∧
    (processByte ⟨zeroBuf, BUF_SIZE, true⟩ 97).state.gpsResponse 0 = 97 ∧
    (processByte ⟨zeroBuf, BUF_SIZE, true⟩ 97).state.gpsResponse 1 = 0 :=
  overflow_keeps_building ⟨zeroBuf, BUF_SIZE, true⟩ 97 (by decide) rfl

/-- The run that feeds a start marker and then 200 ordinary bytes,
driving the framer through its overflow reset. -/
def overflowTail : RunResult := feedAll initFramer (36 :: List.replicate 200 97)

set_option maxRecDepth 100000 in
/-- C6 (counterexample): feeding `'$'` followed by 200 `'a'` bytes causes
exactly one overflow reset, after which the framer is still in the
`Building` state (the claim says it returns to idle); the following bytes
`"bc\r\n"` — containing no start marker — then complete a candidate (the
claim says the frame is dropped until the next start marker). -/
theorem overflow_not_idle_cex :
    overflowTail.overflows = 1 ∧ overflowTail.state.buildingSentence = true ∧
      (feedAll overflowTail.state [98, 99, 13, 10]).emissions = 1 := by decide


/-- Every hex digit character produced by `hexDigit` is at or above
ASCII `'0'`. -/
theorem hexDigit_ge (d : Nat) : 48 ≤ hexDigit d := by
  unfold hexDigit; split <;> omega

/-- A buffer whose bytes are all non-NUL is its own C string. -/
theorem cstr_eq_self (l : List Nat) (h : ∀ b ∈ l, b ≠ 0) : cstr l = l := by
  unfold cstr
  rw [List.takeWhile_eq_self_iff]
  intro a ha
  simpa using h a ha

/-- The XOR fold stays below 256 when the seed and all bytes are. -/
theorem xorFold_lt (l : List Nat) (a : Nat) (hl : ∀ b ∈ l, b < 256)
    (ha : a < 256) : l.foldl (fun a b => a ^^^ b) a < 256 := by
  induction l generalizing a with
  | nil => simpa using ha
  | cons x t ih =>
    simp only [List.foldl_cons]
    apply ih
    · intro b hb
      exact hl b (List.mem_cons_of_mem x hb)
    · have hx : x < 256 := hl x (List.mem_cons_self x t)
      have h8 := Nat.xor_lt_two_pow (n := 8) (x := a) (y := x) (by simpa using ha) (by simpa using hx)
      simpa using h8

/-- Reading an appended list past the first part lands in the second. -/
theorem getD_append_len (B l₂ : List Nat) (k : Nat) :
    (B ++ l₂).getD (B.length + k) 0 = l₂.getD k 0 := by
  induction B with
  | nil => simp
  | cons a t ih => simpa [Nat.succ_add, Nat.add_right_comm] using ih


/-- C8 (amended): for every command body that starts with the start
marker, has at least 6 bytes all non-NUL, below 256 and distinct from the
checksum separator `'*'`, and whose framed result fits the destination
buffer, framing with `SetCheckSum` and re-verifying with `CheckSum`
succeeds. (Bodies containing `'*'` are excluded: `CheckSum` locates the
first asterisk, so the round trip fails on them, see
`roundtrip_fails_with_star_in_body`.) -/
theorem setchecksum_checksum_roundtrip (B : List Nat) (bufSize : Nat) (fr : List Nat)
    (hlen : 6 ≤ B.length) (hnz : ∀ b ∈ B, b ≠ 0) (hlt : ∀ b ∈ B, b < 256)
    (hstar : ∀ b ∈ B, b ≠ 42) (hhead : B.getD 0 0 = 36)
    (hfr : SetCheckSum B bufSize = some fr) :
    CheckSum fr = true := by
  have hsl : strlenList B = B.length := by rw [strlenList, cstr_eq_self B hnz]
  unfold SetCheckSum at hfr
  rw [hsl] at hfr
  dsimp only at hfr
  split at hfr
  case isFalse => simp at hfr
  case isTrue hfits =>
    rw [List.take_length] at hfr
    set chk := xorRange B B.length with hchk
    set d1 := hexDigit (chk / 16) with hd1def
    set d2 := hexDigit (chk % 16) with hd2def
    have hfr2 : fr = B ++ [42, d1, d2, 13, 10] := by
      have := Option.some.inj hfr
      exact this.symm
    have hd1 : 48 ≤ d1 := hexDigit_ge _
    have hd2 : 48 ≤ d2 := hexDigit_ge _
    have hfrnz : ∀ b ∈ fr, b ≠ 0 := by
      intro b hb
      rw [hfr2] at hb
      rcases List.mem_append.mp hb with h | h
      · exact hnz b h
      · simp only [List.mem_cons, List.not_mem_nil, or_false] at h
        rcases h with rfl | rfl | rfl | rfl | rfl <;> omega
    have hcstr : cstr fr = fr := cstr_eq_self fr hfrnz
    have hslfr : strlenList fr = B.length + 5 := by
      rw [strlenList, hcstr, hfr2]
      simp
    have hstarIdx : starIndex fr = B.length := by
      unfold starIndex
      rw [hcstr, hfr2, List.findIdx?_append]
      have h1 : B.findIdx? (fun b => b == 42) = none := by
        rw [List.findIdx?_eq_none_iff]
        intro x hx
        simpa using hstar x hx
      rw [h1]
      simp
    have hxor : xorRange fr B.length = chk := by
      rw [hchk]
      unfold xorRange
      rw [hfr2, List.take_left' rfl, List.take_length]
    have hget : fr.getD (B.length + 1) 0 = d1 := by
      rw [hfr2, getD_append_len B _ 1]
      rfl
    unfold CheckSum
    rw [hslfr, hstarIdx]
    dsimp only
    rw [if_pos (by omega : 10 < B.length + 5), if_pos (by omega : 0 < B.length),
      hget, hxor]
    simp [hd1def]


/-- Witness for `setchecksum_checksum_roundtrip` on the body
`"$ABCDE"` with buffer size 40: the framed sentence `"$ABCDE*41\r\n"`
verifies. -/
theorem setchecksum_checksum_roundtrip_witness :
    CheckSum [36, 65, 66, 67, 68, 69, 42, 52, 49, 13, 10] = true :=
  setchecksum_checksum_roundtrip [36, 65, 66, 67, 68, 69] 40
    [36, 65, 66, 67, 68, 69, 42, 52, 49, 13, 10]
    (by decide) (by decide) (by decide) (by decide) (by decide) (by decide)

/-- C8 (counterexample): the body `"$A*AAA"` starts with the marker, fits
the buffer and exceeds the minimum length, yet `CheckSum` rejects the frame
built by `SetCheckSum` because verification stops at the body's own
asterisk. -/
theorem roundtrip_fails_with_star_in_body :
    SetCheckSum [36, 65, 42, 65, 65, 65] 40 =
        some [36, 65, 42, 65, 65, 65, 42, 50, 65, 13, 10] ∧
      CheckSum [36, 65, 42, 65, 65, 65, 42, 50, 65, 13, 10] = false := by decide

/-- C7: `CheckSum` accepts the sentence
`"$GPRMC,153938.00,V,,,,,,,160722,,,N*7B"` even though the computed
checksum is `0x78` (first digit `'7'` = 55, second digit `'8'`), i.e. the
claimed checksum differs from the computed one in the second digit
(`'B'` = 66): the code compares only the first hex digit
(`bResult=(*csIN==*Calc)`), contradicting the claimed two-digit
case-sensitive comparison. -/
theorem checksum_accepts_wrong_second_digit :
    CheckSum rmc7B = true ∧
      xorRange rmc7B (starIndex rmc7B) = 120 ∧
      rmc7B.getD (starIndex rmc7B + 1) 0 = 55 ∧
      rmc7B.getD (starIndex rmc7B + 2) 0 = 66 := by decide

/-- C3: a time/date (RMC) event updates the clock only when a trust flag
is set — with `bbr`, `fix2` and `fix3` all clear, `SyncTimeToGPSAlt`
leaves the clock, the clock-set flag, `_gpsTime` and the persistent record
unchanged and reports no decay correction, for every input buffer. -/
theorem rmc_no_trust_no_clock_update (s : SysState) (resp : List Nat)
    (hbbr : s.gpsStatus.bbr = false) (h2 : s.gpsStatus.fix2 = false)
    (h3 : s.gpsStatus.fix3 = false) :
    (SyncTimeToGPSAlt s resp).state.clockSet = s.clockSet ∧
    (SyncTimeToGPSAlt s resp).state.clock = s.clock ∧
    (SyncTimeToGPSAlt s resp).state.gpsTime = s.gpsTime ∧
    (SyncTimeToGPSAlt s resp).state.eeLastFix = s.eeLastFix ∧
    (SyncTimeToGPSAlt s resp).state.eeFixType = s.eeFixType ∧
    (SyncTimeToGPSAlt s resp).decayReport = none := by
  unfold SyncTimeToGPSAlt
  cases hp : rmcParse resp <;> simp_all

/-- A state with the clock unset and every trust flag clear. -/
def untrustedState : SysState := ⟨⟨false, false, false, false⟩, 0, false, 0, true, 0, 0⟩

/-- Witness for `rmc_no_trust_no_clock_update`: processing the scenario
sentence `"$GPRMC,153938.00,V,,,,,,,160722,,,N*78\r\n"` with no trust flag
set leaves the clock state unchanged. -/
theorem rmc_no_trust_no_clock_update_witness :
    (SyncTimeToGPSAlt untrustedState rmc78).state.clockSet = false ∧
    (SyncTimeToGPSAlt untrustedState rmc78).state.clock = 0 ∧
    (SyncTimeToGPSAlt untrustedState rmc78).state.gpsTime = 0 ∧
    (SyncTimeToGPSAlt untrustedState rmc78).decayReport = none := by
  have h := rmc_no_trust_no_clock_update untrustedState rmc78 rfl rfl rfl
  exact ⟨h.1, h.2.1, h.2.2.1, h.2.2.2.2.2⟩

/-- C5 (amended): on a fix-quality sentence, the character at buffer
index 9 fully determines the trust flags: `'1'` sets exactly
`bbr`, `'2'` sets exactly `fix2`, `'3'` sets exactly `fix3`, and any other
character clears all three flags (rather than leaving them unchanged)
while raising the unexpected-input report; the `rmc` flag is untouched. -/
theorem fix_quality_flag_update (s : SysState) (resp : List Nat)
    (hfound : (findSub (cstr resp) gpgsaPat).isSome = true) :
    (TimeSourceAlt s resp).state.gpsStatus.rmc = s.gpsStatus.rmc ∧
    (TimeSourceAlt s resp).state.gpsStatus.bbr = (resp.getD 9 0 == 49) ∧
    (TimeSourceAlt s resp).state.gpsStatus.fix2 = (resp.getD 9 0 == 50) ∧
    (TimeSourceAlt s resp).state.gpsStatus.fix3 = (resp.getD 9 0 == 51) ∧
    (TimeSourceAlt s resp).unexpected =
      (!(resp.getD 9 0 == 49) && !(resp.getD 9 0 == 50) && !(resp.getD 9 0 == 51)) ∧
    (TimeSourceAlt s resp).bResult = true := by
  unfold TimeSourceAlt
  rw [if_pos hfound]
  set v := resp.getD 9 0 with hv
  by_cases h1 : v = 49
  · simp [h1]
  · by_cases h2 : v = 50
    · simp [h1, h2]
    · by_cases h3 : v = 51
      · simp [h1, h2, h3]
      · simp [h1, h2, h3]


/-- A state with `rmc` and `bbr` set, used to observe the flag rewrite. -/
def preGsaState : SysState := ⟨⟨true, true, false, false⟩, 7, true, 99, true, 1, 2⟩

/-- Witness for `fix_quality_flag_update` on the checksum-valid 3D
sentence `gsa3` from a state with `bbr` set: exactly `fix3` is set and no
report is raised. -/
theorem fix_quality_flag_update_witness :
    (TimeSourceAlt preGsaState gsa3).state.gpsStatus.rmc = true ∧
    (TimeSourceAlt preGsaState gsa3).state.gpsStatus.bbr = false ∧
    (TimeSourceAlt preGsaState gsa3).state.gpsStatus.fix2 = false ∧
    (TimeSourceAlt preGsaState gsa3).state.gpsStatus.fix3 = true ∧
    (TimeSourceAlt preGsaState gsa3).unexpected = false ∧
    (TimeSourceAlt preGsaState gsa3).bResult = true := by
  have h := fix_quality_flag_update preGsaState gsa3 (by decide)
  refine ⟨?_, ?_, ?_, ?_, ?_, h.2.2.2.2.2⟩
  · rw [h.1]; decide
  · rw [h.2.1]; decide
  · rw [h.2.2.1]; decide
  · rw [h.2.2.2.1]; decide
  · rw [h.2.2.2.2.1]; decide

/-- A state holding a 3D trust flag. -/
def fix3State : SysState := ⟨⟨false, false, false, true⟩, 0, false, 0, true, 0, 0⟩

/-- C5 (counterexample): the checksum-valid sentence with fix character
`'9'` raises the unexpected-input report but also clears a previously set
`fix3` flag, contradicting the claim that no flag changes. -/
theorem unexpected_char_clears_flags_cex :
    CheckSum gsa9 = true ∧ fix3State.gpsStatus.fix3 = true ∧
      (TimeSourceAlt fix3State gsa9).unexpected = true ∧
      (TimeSourceAlt fix3State gsa9).state.gpsStatus.fix3 = false := by decide

/-- The 16-bit reinterpretation is zero exactly on multiples of 65536. -/
theorem toInt16_eq_zero_iff (n : Nat) : toInt16 n = 0 ↔ n % 65536 = 0 := by
  unfold toInt16
  split_ifs with h <;> omega

/-- C4 (amended): with the clock set to `E1` and a 2D trust flag, a
time/date event carrying epoch `E2` whose difference `E2 - E1` is non-zero
modulo 65536 forcibly overwrites the clock to `E2` (never averaged) and
reports a decay correction equal to the 16-bit signed truncation of
`E2 - E1` (which equals `E2 - E1` whenever the difference is within a
signed 16-bit range). When the difference is a non-zero multiple of 65536
the `int decay` computes to zero and the event is ignored, see
`decay_multiple_of_65536_ignored`. -/
theorem decay_correction_forced (s : SysState) (resp : List Nat) (E2 : Nat)
    (hE : rmcEpoch resp = some E2)
    (hfix : s.gpsStatus.fix2 = true)
    (hset : s.clockSet = true)
    (hclk : s.clock < 4294967296)
    (hnz : ((E2 + 4294967296 - s.clock) % 4294967296) % 65536 ≠ 0) :
    (SyncTimeToGPSAlt s resp).state.clock = E2 ∧
    (SyncTimeToGPSAlt s resp).state.clockSet = true ∧
    (SyncTimeToGPSAlt s resp).decayReport =
      some (toInt16 ((E2 + 4294967296 - s.clock) % 4294967296)) := by
  unfold rmcEpoch at hE
  unfold SyncTimeToGPSAlt
  cases hp : rmcParse resp
  case noSentence => rw [hp] at hE; exact absurd hE (by simp)
  case badTime => rw [hp] at hE; exact absurd hE (by simp)
  case epoch t =>
    rw [hp] at hE
    have ht : t = E2 := by simpa using hE
    subst ht
    have hdec : ¬toInt16 ((t + 4294967296 - s.clock) % 4294967296) = 0 := by
      intro h0
      exact hnz ((toInt16_eq_zero_iff _).mp h0)
    simp [hfix, hset, hdec, Nat.mod_eq_of_lt hclk]


/-- A `Trusted2D` state whose clock lags the scenario epoch by 50 s. -/
def trusted2DState : SysState := ⟨⟨false, false, true, false⟩, 0, true, 1657985928, true, 0, 0⟩

set_option maxRecDepth 100000 in
/-- Witness for `decay_correction_forced`: from clock `E2 - 50` the
scenario sentence (epoch 1657985978) overwrites the clock and reports a
decay of 50 seconds. -/
theorem decay_correction_forced_witness :
    (SyncTimeToGPSAlt trusted2DState rmc78).state.clock = 1657985978 ∧
    (SyncTimeToGPSAlt trusted2DState rmc78).state.clockSet = true ∧
    (SyncTimeToGPSAlt trusted2DState rmc78).decayReport = some 50 := by
  have h := decay_correction_forced trusted2DState rmc78 1657985978
    (by decide) rfl rfl (by decide) (by decide)
  refine ⟨h.1, h.2.1, ?_⟩
  rw [h.2.2]
  decide

/-- A `Trusted2D` state whose clock lags the scenario epoch by exactly
65536 seconds. -/
def trusted2DStateCex : SysState := ⟨⟨false, false, true, false⟩, 0, true, 1657920442, true, 0, 0⟩

set_option maxRecDepth 100000 in
/-- C4 (counterexample): the scenario sentence carries epoch
`E2 = 1657985978`; from a `Trusted2D` state whose clock is exactly
`E2 - 65536`, the 16-bit `int decay` truncates to zero, so the clock is
left at `E2 - 65536` and no correction is reported — the claim promised an
overwrite to `E2` with a reported correction of 65536 seconds. -/
theorem decay_multiple_of_65536_ignored :
    rmcEpoch rmc78 = some 1657985978 ∧
      trusted2DStateCex.clock + 65536 = 1657985978 ∧
      (SyncTimeToGPSAlt trusted2DStateCex rmc78).state.clock = 1657920442 ∧
      (SyncTimeToGPSAlt trusted2DStateCex rmc78).decayReport = none := by decide

/-- `SyncTimeToGPS` of GPSTime.ino contains no EEPROM access: its result
carries the caller's persistent fields unchanged. -/
theorem sync_ino_preserves_ee (s : InoState) (resp : List Nat) :
    (SyncTimeToGPSIno s resp).state.eeConfigured = s.eeConfigured ∧
    (SyncTimeToGPSIno s resp).state.eeLastFix = s.eeLastFix ∧
    (SyncTimeToGPSIno s resp).state.eeFixType = s.eeFixType := by
  unfold SyncTimeToGPSIno
  cases hp : rmcParseIno resp
  · simp
  · dsimp only
    split_ifs <;> simp

/-- Effect of `TimeSourceIno`: it never touches the configured flag, the
clock or `lastUpdateGPS`; it returns true exactly when the sentence
qualifies; and it writes the persistent record exactly on fix character
`'2'` or `'3'` with the clock set, recording `now()` and the character. -/
theorem timesource_ino_effect (s : InoState) (resp : List Nat) :
    (TimeSourceIno s resp).state.eeConfigured = s.eeConfigured ∧
    (TimeSourceIno s resp).state.clock = s.clock ∧
    (TimeSourceIno s resp).state.clockSet = s.clockSet ∧
    (TimeSourceIno s resp).state.lastUpdateGPS = s.lastUpdateGPS ∧
    (TimeSourceIno s resp).bResult = (inoGsaFix resp).isSome ∧
    (match inoGsaFix resp with
     | some f =>
        if (f == 50 || f == 51) && s.clockSet then
          (TimeSourceIno s resp).state.eeLastFix = s.clock ∧
          (TimeSourceIno s resp).state.eeFixType = f
        else
          (TimeSourceIno s resp).state.eeLastFix = s.eeLastFix ∧
          (TimeSourceIno s resp).state.eeFixType = s.eeFixType
     | none =>
        (TimeSourceIno s resp).state.eeLastFix = s.eeLastFix ∧
        (TimeSourceIno s resp).state.eeFixType = s.eeFixType) := by
  unfold TimeSourceIno
  cases hg : inoGsaFix resp
  · simp
  · dsimp only
    split_ifs <;> simp_all

/-- C9: across the whole per-sentence dispatch of GPSTime.ino, the
persistent record (`eeLastFix`, `eeFixType`) changes exactly when a
qualifying fix-quality sentence reports `'2'` or `'3'` while the clock is
set — in which case it receives the current epoch and the fix character —
and the configured flag never changes; `setup` writes the store only on
first run (when the configured flag is still clear). -/
theorem ee_write_characterization (s : InoState) (resp : List Nat) :
    (processSentenceIno s resp).1.eeConfigured = s.eeConfigured ∧
    (eeWriteCond s resp = true →
      (processSentenceIno s resp).1.eeLastFix = s.clock ∧
      (processSentenceIno s resp).1.eeFixType = (inoGsaFix resp).getD 0) ∧
    (eeWriteCond s resp = false →
      (processSentenceIno s resp).1.eeLastFix = s.eeLastFix ∧
      (processSentenceIno s resp).1.eeFixType = s.eeFixType) ∧
    (s.eeConfigured = true → setupEE s = s) ∧ (setupEE s).eeConfigured = true := by
  obtain ⟨hcfg, hclk, hcs, hlu, hbr, hee⟩ := timesource_ino_effect s resp
  have hsetup1 : s.eeConfigured = true → setupEE s = s := by
    intro h
    unfold setupEE
    rw [h]
    simp
  have hsetup2 : (setupEE s).eeConfigured = true := by
    unfold setupEE
    split_ifs <;> simp_all
  unfold processSentenceIno eeWriteCond
  by_cases hchk : CheckSum resp
  all_goals simp only [hchk, Spam, if_true, if_false, ite_true, ite_false,
    Bool.false_eq_true, Bool.true_and, Bool.false_and]
  case neg => exact ⟨by simp, by simp, by simp, hsetup1, hsetup2⟩
  case pos =>
    cases hg : inoGsaFix resp with
    | some f =>
      rw [hg] at hbr hee
      dsimp only at hee
      simp only [Option.isSome_some] at hbr
      simp only [hbr, ite_true, if_true]
      by_cases hf : ((f == 50 || f == 51) && s.clockSet) = true
      · rw [if_pos hf] at hee
        refine ⟨hcfg, fun _ => ⟨hee.1, hee.2⟩, fun hc => ?_, hsetup1, hsetup2⟩
        simp [hf] at hc
      · rw [if_neg hf] at hee
        refine ⟨hcfg, fun hc => ?_, fun _ => hee, hsetup1, hsetup2⟩
        simp [hf] at hc
    | none =>
      rw [hg] at hbr hee
      dsimp only at hee
      simp only [Option.isSome_none] at hbr
      simp only [hbr, Bool.false_eq_true, ite_false, if_false]
      obtain ⟨e1, e2, e3⟩ := sync_ino_preserves_ee (TimeSourceIno s resp).state resp
      split_ifs with hgate
      · exact ⟨e1.trans hcfg, by simp, fun _ => ⟨e2.trans hee.1, e3.trans hee.2⟩,
          hsetup1, hsetup2⟩
      · exact ⟨hcfg, by simp, fun _ => hee, hsetup1, hsetup2⟩


/-- C10: once the clock is set, a sentence containing no fix-quality
pattern (in particular any RMC time/date sentence) is not processed at all
while at most `SYNC_TIME_T_TO_GPS` = 60 seconds have elapsed since the
last accepted sync: the dispatch returns the state unchanged with no decay
report, whatever the sentence's checksum or epoch. -/
theorem sync_window_blocks_rmc (s : InoState) (resp : List Nat)
    (hset : s.clockSet = true)
    (hwin : (s.clock + 4294967296 - s.lastUpdateGPS % 4294967296) % 4294967296 ≤
      SYNC_TIME_T_TO_GPS)
    (hnogsa : (findSub (cstr resp) gpgsaPat).isSome = false) :
    processSentenceIno s resp = (s, none) := by
  have hg : inoGsaFix resp = none := by
    unfold inoGsaFix
    simp only [hnogsa, Bool.false_eq_true, if_false, ite_false]
  have hts : TimeSourceIno s resp = ⟨s, false⟩ := by
    unfold TimeSourceIno
    rw [hg]
  unfold processSentenceIno
  rw [hts]
  by_cases hchk : CheckSum resp <;>
    simp [hchk, Spam, hset, Nat.not_lt.mpr hwin]

/-- A state inside the 60-second resync window (clock 1000, last sync
950). -/
def blockedState : InoState := ⟨true, 950, true, 1000, true, 0, 0⟩

/-- Witness for `sync_window_blocks_rmc`: with the clock at 1000 and the
last sync at 950 (50 seconds ago), the valid scenario RMC sentence produces
no state change and no report. -/
theorem sync_window_blocks_rmc_witness :
    processSentenceIno blockedState rmc78 = (blockedState, none) :=
  sync_window_blocks_rmc blockedState rmc78 rfl (by decide) (by decide)

/-- A state with the clock set at epoch 5000. -/
def fixedClockState : InoState := ⟨true, 0, true, 5000, true, 1, 2⟩

/-- Witness for `ee_write_characterization`: the 3D sentence `gsa3`
processed with the clock set at epoch 5000 persists `(5000, '3')`. -/
theorem ee_write_characterization_witness :
    (processSentenceIno fixedClockState gsa3).1.eeLastFix = 5000 ∧
    (processSentenceIno fixedClockState gsa3).1.eeFixType = 51 ∧
    (processSentenceIno fixedClockState gsa3).1.eeConfigured = true := by
  have h := ee_write_characterization fixedClockState gsa3
  have hc := h.2.1 (by decide)
  refine ⟨hc.1, ?_, h.1⟩
  rw [hc.2]
  decide

end NEO6M
